import Mathlib

/-!
Verification of the CodeAnt CLI demo (codeant-demo.js) and the
CodeAntAI service (src/services/codeantAI.js) of MyNameIsBof/lab3.

The CLI persists a single JSON configuration file, gates commands on
prior `init`/`connect` state, and emits mock scan/analysis/report data.
The service aggregates three mock producers into one report with derived
recommendations.  Both are shallowly embedded below: JS objects become
association lists of `JsVal`, the filesystem becomes an explicit `FS`
record, thrown errors become `Except`-style results, and the clock and
`Math.random()` draws become explicit parameters.
-/

/-- A JSON-ish JavaScript value as it appears in the CLI's config and
report objects.  Objects are association lists in insertion order. -/
inductive JsVal : Type where
  | str : String → JsVal
  | num : Rat → JsVal
  | bool : Bool → JsVal
  | arr : List JsVal → JsVal
  | obj : List (String × JsVal) → JsVal

namespace JsVal

/-- Key lookup in an object's field list (first match; field lists built
by `upsert` keep keys unique, matching JS object semantics). -/
def lookupKey (fields : List (String × JsVal)) (k : String) : Option JsVal :=
  match fields with
  | [] => none
  | (k', v) :: rest => if k' = k then some v else lookupKey rest k

/-- `o[k]` on a JS object value; `none` for non-objects / absent keys
(JS `undefined`). -/
def get (v : JsVal) (k : String) : Option JsVal :=
  match v with
  | .obj fields => lookupKey fields k
  | _ => none

/-- Assignment `o[k] = v` on a field list: overwrite in place when the
key exists (JS keeps the original key position), append otherwise. -/
def upsert (fields : List (String × JsVal)) (k : String) (v : JsVal) :
    List (String × JsVal) :=
  match fields with
  | [] => [(k, v)]
  | (k', v') :: rest =>
    if k' = k then (k, v) :: rest else (k', v') :: upsert rest k v

/-- JS object spread `{...base, ...over}`: assign each field of `over`
onto `base` in order, later duplicates winning. -/
def spread (base over : List (String × JsVal)) : List (String × JsVal) :=
  over.foldl (fun acc kv => upsert acc kv.1 kv.2) base

/-- JS truthiness of an option value as produced by `parseOptions`
(a value is either a non-empty string or the boolean `true`, both
truthy); mirrors `options.json` style tests.  Absent keys are falsy. -/
def truthy : Option JsVal → Bool
  | none => false
  | some (.str s) => s ≠ ""
  | some (.bool b) => b
  | some (.num q) => q ≠ 0
  | some (.arr _) => true
  | some (.obj _) => true

end JsVal

/-- The `defaultConfig` record from the `CodeAntCLI` constructor. -/
def defaultConfig : List (String × JsVal) :=
  [ ("projectName", .str "FER-PE")
  , ("repository", .str "github.com/MyNameIsBof/lab3")
  , ("language", .str "javascript")
  , ("framework", .str "react")
  , ("excludePaths", .arr [.str "node_modules", .str "dist", .str ".git"])
  , ("rules", .obj
      [ ("security", .bool true)
      , ("quality", .bool true)
      , ("performance", .bool true)
      , ("accessibility", .bool true) ])
  , ("thresholds", .obj
      [ ("securityScore", .num 8)
      , ("qualityScore", .num 7)
      , ("maxVulnerabilities", .num 0) ]) ]

/-- `args[i].startsWith('--')`, stated on the character list so it
computes by unfolding. -/
def startsWithDashDash (s : String) : Bool :=
  match s.data with
  | '-' :: '-' :: _ => true
  | _ => false

/-- Loop body of `parseOptions`: the source iterates `i += 2`, looking
only at even offsets; at an even offset a `--`-token maps to the next
token (`args[i+1] || true`: the boolean `true` when the next token is
absent or the empty string), other tokens are skipped. -/
def parseOptionsGo (acc : List (String × JsVal)) :
    List String → List (String × JsVal)
  | [] => acc
  | [a] =>
    if startsWithDashDash a then
      JsVal.upsert acc (a.drop 2) (.bool true)
    else acc
  | a :: b :: rest =>
    let acc' :=
      if startsWithDashDash a then
        JsVal.upsert acc (a.drop 2) (if b = "" then .bool true else .str b)
      else acc
    parseOptionsGo acc' rest

/-- `parseOptions(args)` of the CLI. -/
def parseOptions (args : List String) : List (String × JsVal) :=
  parseOptionsGo [] args

/-! ## The CLI (codeant-demo.js): filesystem state and gated operations -/

/-- The slice of the filesystem the CLI touches: `codeant.config.json`
(its parsed object fields, `none` when the file is absent) and the
report files written by `report --format json`. -/
structure FS where
  config : Option (List (String × JsVal))
  reports : List (String × JsVal)

namespace CLI

/-- Message of the error thrown by `connectRepository` when no config
file exists. -/
def notInitializedMsg : String := "Project not initialized. Run \"init\" first."

/-- Message of the error thrown by the gated commands when the project
is not connected. -/
def notConnectedMsg : String := "Repository not connected. Run \"connect\" first."

/-- `config.connected === true` (strict equality with the boolean). -/
def isTrueVal : Option JsVal → Bool
  | some (.bool b) => b
  | _ => false

/-- `isProjectConnected()`: false when the config file is absent,
otherwise the strict test `config.connected === true`. -/
def isProjectConnected (fs : FS) : Bool :=
  match fs.config with
  | none => false
  | some c => isTrueVal (JsVal.lookupKey c "connected")

/-- `initProject(options)`: write `{...this.defaultConfig, ...options}`
to the config file.  Never throws. -/
def initProject (options : List (String × JsVal)) (fs : FS) :
    FS × Except String Unit :=
  ({ fs with config := some (JsVal.spread defaultConfig options) }, .ok ())

/-- `connectRepository(options)`: throw when the config file is absent;
otherwise set `connected = true` and `connectedAt = new Date().toISOString()`
(the `now` parameter) and rewrite the config file.  `options.repo` only
affects console text. -/
def connectRepository (_options : List (String × JsVal)) (now : String)
    (fs : FS) : FS × Except String Unit :=
  match fs.config with
  | none => (fs, .error notInitializedMsg)
  | some c =>
    let c' := JsVal.upsert (JsVal.upsert c "connected" (.bool true))
      "connectedAt" (.str now)
    ({ fs with config := some c' }, .ok ())

/-- `v === s` for a string literal `s`, as a JS `switch` case performs
it: true only when `v` is the very string. -/
def isStrVal (v : JsVal) (s : String) : Bool :=
  match v with
  | .str t => t == s
  | _ => false

/-- The `switch (scanType)` of `runScan`: the findings printed for each
scan type, compared case by case with `===`; a value matching no case
prints nothing. -/
def scanFindings (v : JsVal) : List String :=
  if isStrVal v "dependencies" then
    [ "All dependencies up to date", "11 production dependencies checked" ]
  else if isStrVal v "vulnerabilities" then
    [ "1 medium severity vulnerability found"
    , "CVE-2024-1234 in axios package"
    , "Fix available: Update to axios@1.7.0" ]
  else if isStrVal v "secrets" then
    [ "No exposed secrets detected", "API keys properly secured in .env" ]
  else []

/-- `runScan(options)`: gate on `isProjectConnected`, then scan
`[options.type]` when `options.type` is truthy else the three default
types, collecting each type's findings.  No filesystem writes. -/
def runScan (options : List (String × JsVal)) (fs : FS) :
    FS × Except String (List (JsVal × List String)) :=
  if isProjectConnected fs then
    let scanTypes : List JsVal :=
      match JsVal.lookupKey options "type" with
      | some v =>
        if JsVal.truthy (some v) then [v]
        else [.str "dependencies", .str "vulnerabilities", .str "secrets"]
      | none => [.str "dependencies", .str "vulnerabilities", .str "secrets"]
    (fs, .ok (scanTypes.map fun t => (t, scanFindings t)))
  else (fs, .error notConnectedMsg)

/-- The `switch (analysisType)` of `analyzeCode`, compared case by case
with `===`. -/
def analysisFindings (v : JsVal) : List String :=
  if isStrVal v "quality" then
    [ "Code Quality Score: 8.2/10", "Maintainability Index: 85"
    , "Cyclomatic Complexity: 3.2 (Good)" ]
  else if isStrVal v "performance" then
    [ "Performance Score: 7.8/10", "Bundle size: 245KB (Optimizable)"
    , "Suggestions: Code splitting, lazy loading" ]
  else if isStrVal v "maintainability" then
    [ "Maintainability: 88/100", "Documentation: 65% coverage"
    , "Test Coverage: 72%" ]
  else if isStrVal v "accessibility" then
    [ "Accessibility Score: 9.1/10", "ARIA labels: Well implemented"
    , "Color contrast: Excellent" ]
  else []

/-- `analyzeCode(options)`: gate on `isProjectConnected`, then analyze
`[options.type]` when truthy else the four default types.  No
filesystem writes. -/
def analyzeCode (options : List (String × JsVal)) (fs : FS) :
    FS × Except String (List (JsVal × List String)) :=
  if isProjectConnected fs then
    let analysisTypes : List JsVal :=
      match JsVal.lookupKey options "type" with
      | some v =>
        if JsVal.truthy (some v) then [v]
        else [.str "quality", .str "performance", .str "maintainability",
              .str "accessibility"]
      | none => [.str "quality", .str "performance", .str "maintainability",
                 .str "accessibility"]
    (fs, .ok (analysisTypes.map fun t => (t, analysisFindings t)))
  else (fs, .error notConnectedMsg)

/-- The constant `reportData` object of the CLI's `generateReport`:
every field except `timestamp` is a literal. -/
def reportData (now : String) : JsVal :=
  .obj
    [ ("timestamp", .str now)
    , ("project", .str "FER-PE")
    , ("repository", .str "github.com/MyNameIsBof/lab3")
    , ("overall_score", .num (83/10))
    , ("security", .obj
        [ ("score", .num (85/10)), ("vulnerabilities", .num 1)
        , ("severity", .str "Medium") ])
    , ("quality", .obj
        [ ("score", .num (82/10)), ("maintainability", .num 85)
        , ("complexity", .num (32/10)), ("test_coverage", .num 72) ])
    , ("performance", .obj
        [ ("score", .num (78/10)), ("bundle_size", .str "245KB")
        , ("suggestions", .num 3) ])
    , ("accessibility", .obj
        [ ("score", .num (91/10)), ("compliance", .str "WCAG 2.1 AA") ]) ]

/-- `options.format === 'json'` (strict string equality). -/
def isJsonFormat : Option JsVal → Bool
  | some (.str s) => s = "json"
  | _ => false

/-- The CLI's `generateReport(options)`: gate on `isProjectConnected`;
build `reportData` from the clock (`now` is `toISOString()`, `dateNow`
is `Date.now()` used in the report filename); write the JSON file only
under `--format json` or a truthy `--json`; otherwise print the same
data.  Returns the report object it rendered. -/
def generateReport (options : List (String × JsVal)) (now : String)
    (dateNow : Nat) (fs : FS) : FS × Except String JsVal :=
  if isProjectConnected fs then
    let rd := reportData now
    let reportFile := "codeant-report-" ++ toString dateNow ++ ".json"
    if isJsonFormat (JsVal.lookupKey options "format")
        || JsVal.truthy (JsVal.lookupKey options "json") then
      ({ fs with reports := fs.reports ++ [(reportFile, rd)] }, .ok rd)
    else (fs, .ok rd)
  else (fs, .error notConnectedMsg)

/-- `runTestCases(options)`: gate on `isProjectConnected`; the rest is
console output over fixed in-memory test tallies, with no filesystem
effect, elided here. -/
def runTestCases (_options : List (String × JsVal)) (fs : FS) :
    FS × Except String Unit :=
  if isProjectConnected fs then (fs, .ok ()) else (fs, .error notConnectedMsg)

/-- `run(args)`: dispatch `args[2] || 'help'` over the command switch
(`config`, `help`, `demo` and unknown commands are ungated and never
throw; console output elided), catching any thrown error as exit code 1
and exiting 0 otherwise. -/
def run (cmd : String) (options : List (String × JsVal)) (now : String)
    (dateNow : Nat) (fs : FS) : FS × Nat :=
  let res : FS × Except String Unit :=
    match cmd with
    | "init" => initProject options fs
    | "connect" => connectRepository options now fs
    | "scan" =>
      let r := runScan options fs
      (r.1, r.2.map fun _ => ())
    | "analyze" =>
      let r := analyzeCode options fs
      (r.1, r.2.map fun _ => ())
    | "test" => runTestCases options fs
    | "demo" => (fs, .ok ())
    | "report" =>
      let r := generateReport options now dateNow fs
      (r.1, r.2.map fun _ => ())
    | "config" => (fs, .ok ())
    | _ => (fs, .ok ())
  match res.2 with
  | .ok _ => (res.1, 0)
  | .error _ => (res.1, 1)

/-- The whole invocation on `process.argv`: command is `args[2] || 'help'`,
options come from `parseOptions(args.slice(3))`. -/
def runArgv (argv : List String) (now : String) (dateNow : Nat) (fs : FS) :
    FS × Nat :=
  let cmd := match argv.drop 2 with
    | [] => "help"
    | c :: _ => if c = "" then "help" else c
  run cmd (parseOptions (argv.drop 3)) now dateNow fs

end CLI

/-! ## The CodeAntAI service (src/services/codeantAI.js)

The service's mock producers draw from the global `Math.random()` and
from `Date.now()`.  The embedding makes every draw an explicit `Rat`
parameter in `[0,1)` (a pinned random source) and every clock reading an
explicit parameter; the draws that only feed `setTimeout` delays never
reach any produced value and are omitted. -/

namespace API

/-- One entry of the fixed vulnerability sample of
`generateMockVulnerabilities` (the first carries a `package` field, the
second a `file` field). -/
structure Vulnerability where
  id : String
  severity : String
  pkg : Option String
  file : Option String
  description : String
  fix : String
deriving DecidableEq, Repr

/-- The fixed two-item `vulnerabilities` sample of
`generateMockVulnerabilities`. -/
def mockVulnerabilitySample : List Vulnerability :=
  [ { id := "CVE-2024-1234", severity := "Medium", pkg := some "axios"
    , file := none
    , description := "Potential XSS vulnerability in request handling"
    , fix := "Update to axios@1.7.0 or later" }
  , { id := "CODEANT-SEC-001", severity := "Low", pkg := none
    , file := some "src/components/AddStudent.jsx"
    , description := "Missing input validation"
    , fix := "Add input sanitization and validation" } ]

/-- `generateMockVulnerabilities()`: `Math.random() > 0.5` picks the
fixed sample, otherwise the empty list. -/
def generateMockVulnerabilities (r : Rat) : List Vulnerability :=
  if r > 1/2 then mockVulnerabilitySample else []

/-- The metrics object of `generateMockQualityMetrics()`. -/
structure QualityMetrics where
  maintainabilityIndex : Int
  cyclomaticComplexity : Int
  testCoverage : Int
  codeSmells : Int
  technicalDebt : String
deriving DecidableEq, Repr

/-- `generateMockQualityMetrics()`: each field is
`Math.floor(Math.random() * c) + b` over its own draw (`technicalDebt`
renders its number with an `h` suffix). -/
def generateMockQualityMetrics (r1 r2 r3 r4 r5 : Rat) : QualityMetrics :=
  { maintainabilityIndex := Rat.floor (r1 * 20) + 80
  , cyclomaticComplexity := Rat.floor (r2 * 5) + 2
  , testCoverage := Rat.floor (r3 * 30) + 70
  , codeSmells := Rat.floor (r4 * 3)
  , technicalDebt := toString (Rat.floor (r5 * 5) + 1) ++ "h" }

/-- The results object of `generateMockAnalysisResults()`. -/
structure AnalysisResults where
  totalFiles : Int
  linesOfCode : Int
  issuesFound : Int
  suggestions : List String
deriving DecidableEq, Repr

/-- `generateMockAnalysisResults()`. -/
def generateMockAnalysisResults (r : Rat) : AnalysisResults :=
  { totalFiles := 15
  , linesOfCode := 2450
  , issuesFound := Rat.floor (r * 5) + 2
  , suggestions :=
      [ "Consider using React.memo for performance optimization"
      , "Add PropTypes for better type checking"
      , "Implement error boundaries for better error handling" ] }

/-- The tagged result of `getSecurityScan()`: on success the
vulnerability list and score are present, on failure only `error` is
(absent JS fields are `none`). -/
structure SecurityScanResult where
  success : Bool
  vulnerabilities : Option (List Vulnerability)
  securityScore : Option Int
  error : Option String
deriving DecidableEq, Repr

/-- The tagged result of `getQualityMetrics()`. -/
structure QualityMetricsResult where
  success : Bool
  metrics : Option QualityMetrics
  qualityScore : Option Int
  error : Option String
deriving DecidableEq, Repr

/-- The tagged result of the service's `analyzeCode()`. -/
structure AnalysisRunResult where
  success : Bool
  analysisId : Option String
  results : Option AnalysisResults
  error : Option String
deriving DecidableEq, Repr

/-- `getSecurityScan()` on the happy path (the only path its
`simulateApiCall('/security/scan')` can take): vulnerabilities from the
coin-flip draw, `securityScore` = `Math.floor(Math.random() * 3) + 8`. -/
def getSecurityScan (rVuln rScore : Rat) : SecurityScanResult :=
  { success := true
  , vulnerabilities := some (generateMockVulnerabilities rVuln)
  , securityScore := some (Rat.floor (rScore * 3) + 8)
  , error := none }

/-- `getQualityMetrics()` on the happy path:
`qualityScore` = `Math.floor(Math.random() * 2) + 8`. -/
def getQualityMetrics (r1 r2 r3 r4 r5 rScore : Rat) : QualityMetricsResult :=
  { success := true
  , metrics := some (generateMockQualityMetrics r1 r2 r3 r4 r5)
  , qualityScore := some (Rat.floor (rScore * 2) + 8)
  , error := none }

/-- The service's `analyzeCode()` on the happy path: the analysis id is
`` `analysis_${Date.now()}` ``. -/
def analyzeCode (dateNow : Nat) (rIssues : Rat) : AnalysisRunResult :=
  { success := true
  , analysisId := some ("analysis_" ++ toString dateNow)
  , results := some (generateMockAnalysisResults rIssues)
  , error := none }

/-- A derived recommendation. -/
structure Recommendation where
  category : String
  priority : String
  message : String
  actions : List String
deriving DecidableEq, Repr

/-- `securityScan.vulnerabilities?.length` with JS optional chaining:
`undefined` when the list is absent, and `undefined > 0` is false. -/
def vulnListLen : Option (List Vulnerability) → Nat
  | some l => l.length
  | none => 0

/-- `qualityMetrics.qualityScore < 8` where an absent score
(`undefined < 8`) is false. -/
def scoreBelowEight : Option Int → Bool
  | some n => n < 8
  | none => false

/-- The unconditional third entry of `generateRecommendations`. -/
def performanceRecommendation : Recommendation :=
  { category := "Performance"
  , priority := "Low"
  , message := "Optimize bundle size and loading performance."
  , actions :=
      [ "Implement code splitting", "Optimize images", "Add lazy loading" ] }

/-- `generateRecommendations(securityScan, qualityMetrics)`: a Security
entry when the scan succeeded with a non-empty vulnerability list, a
Code Quality entry when the metrics succeeded with score `< 8`, and the
Performance entry always, in that push order. -/
def generateRecommendations (securityScan : SecurityScanResult)
    (qualityMetrics : QualityMetricsResult) : List Recommendation :=
  (if securityScan.success
      && decide (0 < vulnListLen securityScan.vulnerabilities) then
    [ { category := "Security"
      , priority := "High"
      , message := "Found "
          ++ toString (vulnListLen securityScan.vulnerabilities)
          ++ " security vulnerabilities. Immediate attention required."
      , actions :=
          [ "Update dependencies with known vulnerabilities"
          , "Implement input validation"
          , "Add authentication middleware" ] } ]
  else [])
  ++ (if qualityMetrics.success
        && scoreBelowEight qualityMetrics.qualityScore then
    [ { category := "Code Quality"
      , priority := "Medium"
      , message := "Code quality score below threshold. Consider refactoring."
      , actions :=
          [ "Add more unit tests", "Reduce code complexity"
          , "Improve documentation" ] } ]
  else [])
  ++ [performanceRecommendation]

/-- A report section: the sub-operation's own result object, or the
`{ error: ... }` marker the aggregator substitutes when that
sub-operation reported failure. -/
inductive ReportSection (α : Type) : Type where
  | ok : α → ReportSection α
  | failed : String → ReportSection α
deriving DecidableEq, Repr

/-- The report object assembled by the service's `generateReport()`. -/
structure Report where
  timestamp : String
  project : List (String × JsVal)
  security : ReportSection SecurityScanResult
  quality : ReportSection QualityMetricsResult
  analysis : ReportSection AnalysisRunResult
  recommendations : List Recommendation

/-- The merge step of `generateReport()` (its `report = {...}` object
literal): each section keeps the sub-result when it succeeded and takes
the fixed error marker otherwise; recommendations derive from the
security and quality sub-results. -/
def combineReport (timestamp : String) (project : List (String × JsVal))
    (securityScan : SecurityScanResult)
    (qualityMetrics : QualityMetricsResult)
    (analysisResults : AnalysisRunResult) : Report :=
  { timestamp := timestamp
  , project := project
  , security :=
      if securityScan.success then .ok securityScan
      else .failed "Failed to fetch security data"
  , quality :=
      if qualityMetrics.success then .ok qualityMetrics
      else .failed "Failed to fetch quality data"
  , analysis :=
      if analysisResults.success then .ok analysisResults
      else .failed "Failed to run analysis"
  , recommendations := generateRecommendations securityScan qualityMetrics }

/-- The outer `{ success: true, report }` return of `generateReport()`. -/
structure ReportResult where
  success : Bool
  report : Option Report

/-- The `Math.random()` draws one `generateReport()` call consumes in
its three producers (delay-only draws omitted: they never reach a
produced value). -/
structure RandomDraws where
  secVuln : Rat
  secScore : Rat
  qm1 : Rat
  qm2 : Rat
  qm3 : Rat
  qm4 : Rat
  qm5 : Rat
  qualScore : Rat
  anaIssues : Rat
deriving DecidableEq, Repr

/-- What `generateReport()` does with the three results its
`Promise.all` join hands back: merge them into the report and wrap it in
`{ success: true, report }` — no sub-result, failed or not, makes the
aggregator itself abort (its own `catch` is unreachable: every producer
catches internally and returns a tagged result instead of throwing). -/
def aggregate (projectConfig : List (String × JsVal)) (timestamp : String)
    (securityScan : SecurityScanResult)
    (qualityMetrics : QualityMetricsResult)
    (analysisResults : AnalysisRunResult) : ReportResult :=
  { success := true
  , report := some (combineReport timestamp projectConfig securityScan
      qualityMetrics analysisResults) }

/-- The service's `generateReport()`: `Promise.all` over the three
producers (all on their happy paths, value draws made explicit), then
the merge step. -/
def generateReport (projectConfig : List (String × JsVal))
    (timestamp : String) (dateNow : Nat) (d : RandomDraws) : ReportResult :=
  aggregate projectConfig timestamp
    (getSecurityScan d.secVuln d.secScore)
    (getQualityMetrics d.qm1 d.qm2 d.qm3 d.qm4 d.qm5 d.qualScore)
    (analyzeCode dateNow d.anaIssues)

/-- Erase the two clock-derived fields of a Report (its `timestamp` and
the analysis section's `analysisId`), leaving everything that depends
only on the configuration and the random draws. -/
def stripClock (r : Report) : Report :=
  { r with
    timestamp := ""
  , analysis :=
      match r.analysis with
      | .ok a => .ok { a with analysisId := none }
      | .failed e => .failed e }

end API

/-! ## Association-list lemmas -/

/-- Lookup after a JS assignment: the assigned key reads back the new
value, every other key is untouched. -/
theorem JsVal.lookupKey_upsert (l : List (String × JsVal)) (k k' : String)
    (v : JsVal) :
    JsVal.lookupKey (JsVal.upsert l k v) k'
      = if k = k' then some v else JsVal.lookupKey l k' := by
  induction l with
  | nil => simp [JsVal.upsert, JsVal.lookupKey]
  | cons hd tl ih =>
    obtain ⟨k₀, v₀⟩ := hd
    by_cases h : k₀ = k
    · subst h
      by_cases h' : k₀ = k' <;> simp [JsVal.upsert, JsVal.lookupKey, h']
    · by_cases h' : k₀ = k'
      · subst h'
        simp [JsVal.upsert, h, JsVal.lookupKey, Ne.symm h]
      · simp [JsVal.upsert, h, JsVal.lookupKey, h', ih]

/-- The last value assigned to a key by a field list, scanning in
assignment order (later assignments win); `none` when the key never
occurs. -/
def JsVal.lastAssigned (over : List (String × JsVal)) (k : String) :
    Option JsVal :=
  match over with
  | [] => none
  | (k', v) :: rest =>
    match JsVal.lastAssigned rest k with
    | some w => some w
    | none => if k' = k then some v else none

/-- Spread is a per-top-level-key choice: a key overridden anywhere in
`over` reads back its last override, every other key keeps its `base`
value. -/
theorem JsVal.lookupKey_spread (base over : List (String × JsVal))
    (k : String) :
    JsVal.lookupKey (JsVal.spread base over) k
      = match JsVal.lastAssigned over k with
        | some v => some v
        | none => JsVal.lookupKey base k := by
  induction over generalizing base with
  | nil => simp [JsVal.spread, JsVal.lastAssigned]
  | cons hd tl ih =>
    obtain ⟨k₀, v₀⟩ := hd
    have hstep : JsVal.spread base ((k₀, v₀) :: tl)
        = JsVal.spread (JsVal.upsert base k₀ v₀) tl := rfl
    rw [hstep, ih, JsVal.lastAssigned]
    cases htl : JsVal.lastAssigned tl k with
    | some w => simp
    | none =>
      by_cases h : k₀ = k <;> simp [h, JsVal.lookupKey_upsert]

/-! ## The session gate -/

namespace CLI

/-- The gate is closed exactly when the config file is absent or its
`connected` field is anything but the boolean `true`. -/
theorem isProjectConnected_eq_false (fs : FS)
    (h : fs.config = none ∨ ∃ c, fs.config = some c ∧
      JsVal.lookupKey c "connected" ≠ some (JsVal.bool true)) :
    isProjectConnected fs = false := by
  rcases h with h | ⟨c, hc, hne⟩
  · simp [isProjectConnected, h]
  · simp only [isProjectConnected, hc]
    cases hv : JsVal.lookupKey c "connected" with
    | none => rfl
    | some v =>
      cases v with
      | bool b =>
        cases b with
        | false => rfl
        | true => exact absurd hv hne
      | str s => rfl
      | num q => rfl
      | arr l => rfl
      | obj l => rfl

/-- C1: in every persisted state whose config file is absent or whose
`connected` field is not the boolean `true`, `scan`, `analyze` and
`report` each fail with the "not connected" error and return the
filesystem unchanged: no report file is written and the config is not
mutated. -/
theorem gated_ops_fail_when_not_connected
    (fs : FS) (options : List (String × JsVal)) (now : String)
    (dateNow : Nat)
    (h : fs.config = none ∨ ∃ c, fs.config = some c ∧
      JsVal.lookupKey c "connected" ≠ some (JsVal.bool true)) :
    runScan options fs = (fs, .error notConnectedMsg) ∧
    analyzeCode options fs = (fs, .error notConnectedMsg) ∧
    generateReport options now dateNow fs = (fs, .error notConnectedMsg) := by
  have hg := isProjectConnected_eq_false fs h
  refine ⟨?_, ?_, ?_⟩ <;>
    simp [runScan, analyzeCode, generateReport, hg]

/-- C1 witness: on a freshly initialized but never connected project
(default config on disk, no `connected` field), all three gated
operations fail with the "not connected" error and leave the state
unchanged. -/
theorem gated_ops_fail_when_not_connected_witness :
    runScan [] ⟨some defaultConfig, []⟩
      = (⟨some defaultConfig, []⟩, .error notConnectedMsg) ∧
    analyzeCode [] ⟨some defaultConfig, []⟩
      = (⟨some defaultConfig, []⟩, .error notConnectedMsg) ∧
    generateReport [] "2025-01-01T00:00:00.000Z" 1735689600000
        ⟨some defaultConfig, []⟩
      = (⟨some defaultConfig, []⟩, .error notConnectedMsg) :=
  gated_ops_fail_when_not_connected ⟨some defaultConfig, []⟩ []
    "2025-01-01T00:00:00.000Z" 1735689600000
    (Or.inr ⟨defaultConfig, rfl, by simp [defaultConfig, JsVal.lookupKey]⟩)

/-- C2: with no config file present, `connect` fails with the "not
initialized" error and writes nothing: the filesystem is returned
unchanged. -/
theorem connect_requires_init (options : List (String × JsVal))
    (now : String) (fs : FS) (h : fs.config = none) :
    connectRepository options now fs = (fs, .error notInitializedMsg) := by
  simp [connectRepository, h]

/-- C2 witness: `connect` on the empty filesystem fails with the "not
initialized" error and leaves the state unchanged. -/
theorem connect_requires_init_witness :
    connectRepository [] "2025-01-01T00:00:00.000Z" ⟨none, []⟩
      = (⟨none, []⟩, .error notInitializedMsg) :=
  connect_requires_init [] "2025-01-01T00:00:00.000Z" ⟨none, []⟩ rfl

end CLI

namespace CLI

/-- C3 counterexample: `init` with the override set
`{rules: {security: false}}` persists `rules` as exactly that one-key
object — the default nested keys (here `quality`) are discarded, not
merged key-by-key as the claim states. -/
theorem init_nested_merge_counterexample :
    JsVal.lookupKey
        (JsVal.spread defaultConfig
          [("rules", JsVal.obj [("security", JsVal.bool false)])]) "rules"
      = some (JsVal.obj [("security", JsVal.bool false)]) ∧
    ((JsVal.lookupKey
        (JsVal.spread defaultConfig
          [("rules", JsVal.obj [("security", JsVal.bool false)])])
        "rules").bind (fun v => v.get "quality")) = none ∧
    ((JsVal.lookupKey defaultConfig "rules").bind (fun v => v.get "quality"))
      = some (JsVal.bool true) ∧
    ((JsVal.lookupKey
        (JsVal.spread defaultConfig
          [("rules", JsVal.obj [("security", JsVal.bool false)])])
        "rules").bind (fun v => v.get "quality"))
      ≠ ((JsVal.lookupKey defaultConfig "rules").bind
          (fun v => v.get "quality")) := by
  refine ⟨rfl, rfl, rfl, ?_⟩
  intro h
  rw [show ((JsVal.lookupKey
      (JsVal.spread defaultConfig
        [("rules", JsVal.obj [("security", JsVal.bool false)])])
      "rules").bind (fun v => v.get "quality")) = none from rfl] at h
  rw [show ((JsVal.lookupKey defaultConfig "rules").bind
      (fun v => v.get "quality")) = some (JsVal.bool true) from rfl] at h
  exact Option.noConfusion h

/-- C3 amended: the persisted config of `init` is the default record
with the override applied per **top-level** key only — a key overridden
anywhere in the override set reads back its last override (the whole
value, nested mappings included), and every key not overridden keeps its
default; `init` itself always succeeds and touches no report file. -/
theorem init_merge_shallow (options : List (String × JsVal)) (fs : FS)
    (k : String) :
    (initProject options fs).2 = .ok () ∧
    (initProject options fs).1.config
      = some (JsVal.spread defaultConfig options) ∧
    (initProject options fs).1.reports = fs.reports ∧
    JsVal.lookupKey (JsVal.spread defaultConfig options) k
      = match JsVal.lastAssigned options k with
        | some v => some v
        | none => JsVal.lookupKey defaultConfig k :=
  ⟨rfl, rfl, rfl, JsVal.lookupKey_spread defaultConfig options k⟩

/-- C4 counterexample: the persisted state reached by the single
operation `init --connected` (the bare flag parses to the boolean
`true`) has `connected = true` — the gate is open — yet no `connectedAt`
key at all, violating the claimed invariant on init-reachable states. -/
theorem connected_invariant_counterexample :
    isProjectConnected
        ((initProject (parseOptions ["--connected"]) ⟨none, []⟩).1) = true ∧
    ∃ c,
      (initProject (parseOptions ["--connected"]) ⟨none, []⟩).1.config
        = some c ∧
      JsVal.lookupKey c "connectedAt" = none :=
  ⟨rfl, ⟨JsVal.spread defaultConfig (parseOptions ["--connected"]), rfl, rfl⟩⟩

/-- C4 amended: a successful `connect` (config file present, ISO
timestamp non-empty) persists `connected = true` and a non-empty string
`connectedAt`, and leaves the gate open; the stronger claimed invariant
over all init-reachable states fails (see the counterexample). -/
theorem connect_persists_connection (options : List (String × JsVal))
    (now : String) (fs : FS) (c : List (String × JsVal))
    (hc : fs.config = some c) (hnow : now ≠ "") :
    ∃ c',
      connectRepository options now fs
        = ({ fs with config := some c' }, .ok ()) ∧
      JsVal.lookupKey c' "connected" = some (JsVal.bool true) ∧
      JsVal.lookupKey c' "connectedAt" = some (JsVal.str now) ∧
      JsVal.lookupKey c' "connectedAt" ≠ some (JsVal.str "") ∧
      isProjectConnected (connectRepository options now fs).1 = true := by
  refine ⟨JsVal.upsert (JsVal.upsert c "connected" (.bool true))
    "connectedAt" (.str now), ?_, ?_, ?_, ?_, ?_⟩
  · simp [connectRepository, hc]
  · rw [JsVal.lookupKey_upsert]
    simp [JsVal.lookupKey_upsert]
  · rw [JsVal.lookupKey_upsert]
    simp
  · rw [JsVal.lookupKey_upsert]
    simp [hnow]
  · have hlk : JsVal.lookupKey
        (JsVal.upsert (JsVal.upsert c "connected" (.bool true))
          "connectedAt" (.str now)) "connected"
        = some (JsVal.bool true) := by
      rw [JsVal.lookupKey_upsert]
      simp [JsVal.lookupKey_upsert]
    simp [connectRepository, hc, isProjectConnected, hlk, isTrueVal]

/-- C4 witness: connecting a freshly initialized project with a concrete
ISO timestamp persists `connected = true` and that non-empty
`connectedAt`. -/
theorem connect_persists_connection_witness :
    ∃ c',
      connectRepository [] "2025-01-01T00:00:00.000Z"
          ⟨some defaultConfig, []⟩
        = (⟨some c', []⟩, .ok ()) ∧
      JsVal.lookupKey c' "connected" = some (JsVal.bool true) ∧
      JsVal.lookupKey c' "connectedAt"
        = some (JsVal.str "2025-01-01T00:00:00.000Z") ∧
      JsVal.lookupKey c' "connectedAt" ≠ some (JsVal.str "") ∧
      isProjectConnected
        (connectRepository [] "2025-01-01T00:00:00.000Z"
          ⟨some defaultConfig, []⟩).1 = true :=
  connect_persists_connection [] "2025-01-01T00:00:00.000Z"
    ⟨some defaultConfig, []⟩ defaultConfig rfl (by simp)

end CLI

namespace API

/-- C5: whatever the security-scan and quality-metrics results, the
derived recommendation list ends with (and hence contains) the fixed
Low-priority Performance recommendation; the Security and Code Quality
entries, when their conditions hold, precede it. -/
theorem recommendations_always_include_performance
    (securityScan : SecurityScanResult)
    (qualityMetrics : QualityMetricsResult) :
    (generateRecommendations securityScan qualityMetrics).getLast?
      = some performanceRecommendation ∧
    performanceRecommendation
      ∈ generateRecommendations securityScan qualityMetrics ∧
    performanceRecommendation.category = "Performance" ∧
    performanceRecommendation.priority = "Low" ∧
    performanceRecommendation.actions
      = [ "Implement code splitting", "Optimize images"
        , "Add lazy loading" ] := by
  refine ⟨?_, ?_, rfl, rfl, rfl⟩
  · unfold generateRecommendations
    exact List.getLast?_concat _
  · unfold generateRecommendations
    simp

/-- C6: if a sub-operation fails, the aggregation step still returns a
successful result carrying a report in which the failed sub-operation's
section is the fixed error marker while each succeeded sub-operation's
section keeps its own result — the aggregator never aborts. -/
theorem report_isolates_failed_subop (timestamp : String)
    (project : List (String × JsVal)) (sec : SecurityScanResult)
    (qual : QualityMetricsResult) (ana : AnalysisRunResult)
    (_h : sec.success = false ∨ qual.success = false ∨ ana.success = false) :
    (aggregate project timestamp sec qual ana).success = true ∧
    (aggregate project timestamp sec qual ana).report
      = some (combineReport timestamp project sec qual ana) ∧
    (sec.success = false →
      (combineReport timestamp project sec qual ana).security
        = .failed "Failed to fetch security data") ∧
    (sec.success = true →
      (combineReport timestamp project sec qual ana).security = .ok sec) ∧
    (qual.success = false →
      (combineReport timestamp project sec qual ana).quality
        = .failed "Failed to fetch quality data") ∧
    (qual.success = true →
      (combineReport timestamp project sec qual ana).quality = .ok qual) ∧
    (ana.success = false →
      (combineReport timestamp project sec qual ana).analysis
        = .failed "Failed to run analysis") ∧
    (ana.success = true →
      (combineReport timestamp project sec qual ana).analysis = .ok ana) := by
  refine ⟨rfl, rfl, ?_, ?_, ?_, ?_, ?_, ?_⟩ <;>
    · intro h'
      simp [combineReport, h']

/-- C6 witness: a failed security scan next to succeeded quality and
analysis results still aggregates into a success whose security section
is the error marker and whose other two sections are populated. -/
theorem report_isolates_failed_subop_witness :
    (aggregate [] "2025-01-01T00:00:00.000Z"
      ⟨false, none, none, some "Request failed"⟩
      (getQualityMetrics 0 0 0 0 0 0) (analyzeCode 0 0)).success = true ∧
    (aggregate [] "2025-01-01T00:00:00.000Z"
      ⟨false, none, none, some "Request failed"⟩
      (getQualityMetrics 0 0 0 0 0 0) (analyzeCode 0 0)).report
      = some (combineReport "2025-01-01T00:00:00.000Z" []
          ⟨false, none, none, some "Request failed"⟩
          (getQualityMetrics 0 0 0 0 0 0) (analyzeCode 0 0)) ∧
    ((⟨false, none, none, some "Request failed"⟩ :
        SecurityScanResult).success = false →
      (combineReport "2025-01-01T00:00:00.000Z" []
        ⟨false, none, none, some "Request failed"⟩
        (getQualityMetrics 0 0 0 0 0 0) (analyzeCode 0 0)).security
        = .failed "Failed to fetch security data") ∧
    ((⟨false, none, none, some "Request failed"⟩ :
        SecurityScanResult).success = true →
      (combineReport "2025-01-01T00:00:00.000Z" []
        ⟨false, none, none, some "Request failed"⟩
        (getQualityMetrics 0 0 0 0 0 0) (analyzeCode 0 0)).security
        = .ok ⟨false, none, none, some "Request failed"⟩) ∧
    ((getQualityMetrics 0 0 0 0 0 0).success = false →
      (combineReport "2025-01-01T00:00:00.000Z" []
        ⟨false, none, none, some "Request failed"⟩
        (getQualityMetrics 0 0 0 0 0 0) (analyzeCode 0 0)).quality
        = .failed "Failed to fetch quality data") ∧
    ((getQualityMetrics 0 0 0 0 0 0).success = true →
      (combineReport "2025-01-01T00:00:00.000Z" []
        ⟨false, none, none, some "Request failed"⟩
        (getQualityMetrics 0 0 0 0 0 0) (analyzeCode 0 0)).quality
        = .ok (getQualityMetrics 0 0 0 0 0 0)) ∧
    ((analyzeCode 0 0).success = false →
      (combineReport "2025-01-01T00:00:00.000Z" []
        ⟨false, none, none, some "Request failed"⟩
        (getQualityMetrics 0 0 0 0 0 0) (analyzeCode 0 0)).analysis
        = .failed "Failed to run analysis") ∧
    ((analyzeCode 0 0).success = true →
      (combineReport "2025-01-01T00:00:00.000Z" []
        ⟨false, none, none, some "Request failed"⟩
        (getQualityMetrics 0 0 0 0 0 0) (analyzeCode 0 0)).analysis
        = .ok (analyzeCode 0 0)) :=
  report_isolates_failed_subop "2025-01-01T00:00:00.000Z" []
    ⟨false, none, none, some "Request failed"⟩
    (getQualityMetrics 0 0 0 0 0 0) (analyzeCode 0 0) (Or.inl rfl)

/-- C7 counterexample: with the random draws pinned (all zero) and the
configuration fixed, two `generateReport()` calls at different clock
readings return different Reports — the timestamp (and the
clock-derived analysis id) differ, so pinning randomness alone does not
make repeated calls agree. -/
theorem report_not_deterministic_counterexample :
    generateReport [] "2025-01-01T00:00:00.000Z" 1 ⟨0, 0, 0, 0, 0, 0, 0, 0, 0⟩
      ≠ generateReport [] "2025-01-02T00:00:00.000Z" 2
          ⟨0, 0, 0, 0, 0, 0, 0, 0, 0⟩ := by
  intro h
  have h2 : (some "2025-01-01T00:00:00.000Z" : Option String)
      = some "2025-01-02T00:00:00.000Z" :=
    congrArg (fun r => r.report.map Report.timestamp) h
  exact absurd h2 (by simp)

/-- C7 amended: `generateReport()`, as a function of the configuration,
the `Math.random()` draws and the clock readings, is deterministic up to
the clock: two calls with the same configuration and the same pinned
draws agree on success and on the whole Report once its two
clock-derived fields (timestamp, analysis id) are erased.  In the source
the draws come from the global `Math.random()` — there is no
caller-supplied random source to inject. -/
theorem report_deterministic_given_draws
    (projectConfig : List (String × JsVal)) (d : RandomDraws)
    (t1 t2 : String) (n1 n2 : Nat) :
    (generateReport projectConfig t1 n1 d).report.map stripClock
      = (generateReport projectConfig t2 n2 d).report.map stripClock ∧
    (generateReport projectConfig t1 n1 d).success
      = (generateReport projectConfig t2 n2 d).success :=
  ⟨rfl, rfl⟩

end API

/-! ## Option parsing: what the two-step loop actually computes -/

/-- The claim's reading of option parsing, modelled from its words (a
refinement target, deliberately not from the source): walk the tokens
one by one; every token beginning with `--` maps to the token
immediately following it, or to the boolean `true` when none follows. -/
def claimedOptionBagGo (acc : List (String × JsVal)) :
    List String → List (String × JsVal)
  | [] => acc
  | [a] =>
    if startsWithDashDash a then
      JsVal.upsert acc (a.drop 2) (.bool true)
    else acc
  | a :: b :: rest =>
    if startsWithDashDash a then
      claimedOptionBagGo (JsVal.upsert acc (a.drop 2) (.str b)) (b :: rest)
    else claimedOptionBagGo acc (b :: rest)

/-- The option bag the claim describes, over a whole argument list. -/
def claimedOptionBag (args : List String) : List (String × JsVal) :=
  claimedOptionBagGo [] args

/-- The `(args[i], args[i+1])` pairs the source's `i += 2` loop
actually visits: the arguments cut into consecutive disjoint pairs. -/
def pairChunks : List String → List (String × Option String)
  | [] => []
  | [a] => [(a, none)]
  | a :: b :: rest => (a, some b) :: pairChunks rest

/-- One visited pair's contribution: a pair whose first token begins
with `--` assigns that flag the second token (`true` when the second
token is absent or empty); any other pair contributes nothing. -/
def chunkStep (acc : List (String × JsVal)) (c : String × Option String) :
    List (String × JsVal) :=
  if startsWithDashDash c.1 then
    JsVal.upsert acc (c.1.drop 2)
      (match c.2 with
       | none => .bool true
       | some b => if b = "" then .bool true else .str b)
  else acc

/-- The parse loop is exactly the fold of `chunkStep` over the visited
pairs. -/
theorem parseOptionsGo_eq_foldl (args : List String)
    (acc : List (String × JsVal)) :
    parseOptionsGo acc args = (pairChunks args).foldl chunkStep acc := by
  induction args using pairChunks.induct generalizing acc with
  | case1 => rfl
  | case2 a => rfl
  | case3 a b rest ih =>
    rw [pairChunks, List.foldl_cons, ← ih]
    rfl

/-- C8 amended: `parseOptions` walks the arguments two at a time; only a
flag token at an even offset contributes, mapping to the token right
after it — verbatim, even when that token is itself a flag — or to the
boolean `true` when that token is absent or empty; flag tokens at odd
offsets and non-flag tokens contribute nothing. -/
theorem parseOptions_eq_chunked (args : List String) :
    parseOptions args = (pairChunks args).foldl chunkStep [] :=
  parseOptionsGo_eq_foldl args []

/-- C8 counterexample: on `["x", "--flag"]` the parser returns the empty
bag — the flag token sits at an odd offset and the `i += 2` loop never
looks at it — while the claim's reading produces `{flag: true}`. -/
theorem parseOptions_skips_odd_offset_flag :
    parseOptions ["x", "--flag"] = [] ∧
    claimedOptionBag ["x", "--flag"] = [("flag", JsVal.bool true)] ∧
    parseOptions ["x", "--flag"] ≠ claimedOptionBag ["x", "--flag"] := by
  refine ⟨rfl, rfl, ?_⟩
  intro h
  rw [show parseOptions ["x", "--flag"] = [] from rfl,
    show claimedOptionBag ["x", "--flag"] = [("flag", JsVal.bool true)]
      from rfl] at h
  exact List.noConfusion h

namespace CLI

/-- The value `report` hands back is decided by the gate alone: the
constant report object (timestamped) on success, the "not connected"
error otherwise — the options and the rest of the state never reach
it. -/
theorem generateReport_snd (options : List (String × JsVal)) (now : String)
    (dateNow : Nat) (fs : FS) :
    (generateReport options now dateNow fs).2
      = if isProjectConnected fs then .ok (reportData now)
        else .error notConnectedMsg := by
  unfold generateReport
  by_cases hg : isProjectConnected fs
  · simp [hg, apply_ite Prod.snd]
  · simp [hg]

/-- C9: on any connected state the CLI `report` operation returns the
one constant report — overall 8.3, security 8.5, quality 8.2,
performance 7.8, accessibility 9.1 — no matter which options are passed
or what the persisted configuration and earlier scans contained; two
invocations can differ in the timestamp field only. -/
theorem report_constant_modulo_timestamp
    (fs fs' : FS) (options options' : List (String × JsVal))
    (now now' : String) (dateNow dateNow' : Nat)
    (h : isProjectConnected fs = true)
    (h' : isProjectConnected fs' = true) :
    (generateReport options now dateNow fs).2 = .ok (reportData now) ∧
    (generateReport options now dateNow fs).2
      = (generateReport options' now dateNow' fs').2 ∧
    (reportData now).get "overall_score" = some (.num (83/10)) ∧
    ((reportData now).get "security").bind (fun v => v.get "score")
      = some (.num (85/10)) ∧
    ((reportData now).get "quality").bind (fun v => v.get "score")
      = some (.num (82/10)) ∧
    ((reportData now).get "performance").bind (fun v => v.get "score")
      = some (.num (78/10)) ∧
    ((reportData now).get "accessibility").bind (fun v => v.get "score")
      = some (.num (91/10)) ∧
    (∀ k, k ≠ "timestamp" →
      (reportData now).get k = (reportData now').get k) := by
  refine ⟨?_, ?_, rfl, rfl, rfl, rfl, rfl, ?_⟩
  · rw [generateReport_snd, h, if_pos rfl]
  · rw [generateReport_snd, generateReport_snd, h, h']
  · intro k hk
    have hne : ¬("timestamp" = k) := fun hh => hk hh.symm
    simp only [reportData, JsVal.get, JsVal.lookupKey]
    rw [if_neg hne, if_neg hne]

/-- C9 witness: on a minimal connected state, `report` returns the
constant report with all five fixed scores, agrees with a second
invocation under different options and state, and differs from a
later-timestamped report in no key but the timestamp. -/
theorem report_constant_modulo_timestamp_witness :
    (generateReport [] "2025-01-01T00:00:00.000Z" 1
        ⟨some [("connected", JsVal.bool true)], []⟩).2
      = .ok (reportData "2025-01-01T00:00:00.000Z") ∧
    (generateReport [] "2025-01-01T00:00:00.000Z" 1
        ⟨some [("connected", JsVal.bool true)], []⟩).2
      = (generateReport [("format", JsVal.str "json")]
          "2025-01-01T00:00:00.000Z" 2
          ⟨some (JsVal.upsert defaultConfig "connected" (JsVal.bool true)),
            []⟩).2 ∧
    (reportData "2025-01-01T00:00:00.000Z").get "overall_score"
      = some (.num (83/10)) ∧
    ((reportData "2025-01-01T00:00:00.000Z").get "security").bind
        (fun v => v.get "score") = some (.num (85/10)) ∧
    ((reportData "2025-01-01T00:00:00.000Z").get "quality").bind
        (fun v => v.get "score") = some (.num (82/10)) ∧
    ((reportData "2025-01-01T00:00:00.000Z").get "performance").bind
        (fun v => v.get "score") = some (.num (78/10)) ∧
    ((reportData "2025-01-01T00:00:00.000Z").get "accessibility").bind
        (fun v => v.get "score") = some (.num (91/10)) ∧
    (∀ k, k ≠ "timestamp" →
      (reportData "2025-01-01T00:00:00.000Z").get k
        = (reportData "2025-06-30T12:00:00.000Z").get k) :=
  report_constant_modulo_timestamp
    ⟨some [("connected", JsVal.bool true)], []⟩
    ⟨some (JsVal.upsert defaultConfig "connected" (JsVal.bool true)), []⟩
    [] [("format", JsVal.str "json")]
    "2025-01-01T00:00:00.000Z" "2025-06-30T12:00:00.000Z" 1 2 rfl rfl

/-- Dispatcher step: a `scan` whose operation succeeds exits 0 with the
operation's final state. -/
theorem run_scan_exit_zero (options : List (String × JsVal)) (now : String)
    (dateNow : Nat) (fs fs' : FS) (out : List (JsVal × List String))
    (h : runScan options fs = (fs', .ok out)) :
    run "scan" options now dateNow fs = (fs', 0) := by
  unfold run
  rw [h]
  rfl

/-- Dispatcher step: an `analyze` whose operation succeeds exits 0 with
the operation's final state. -/
theorem run_analyze_exit_zero (options : List (String × JsVal))
    (now : String) (dateNow : Nat) (fs fs' : FS)
    (out : List (JsVal × List String))
    (h : analyzeCode options fs = (fs', .ok out)) :
    run "analyze" options now dateNow fs = (fs', 0) := by
  unfold run
  rw [h]
  rfl

/-- C10: on a connected project, `scan --type t` and `analyze --type t`
with a string `t` that is none of the recognized categories still
succeed: the unknown value falls through every switch case yielding an
empty findings list, no error is raised, and the whole invocation exits
0 with the state untouched. -/
theorem unknown_type_scan_analyze_succeed
    (fs : FS) (t now : String) (dateNow : Nat)
    (hconn : isProjectConnected fs = true)
    (h1 : t ≠ "dependencies") (h2 : t ≠ "vulnerabilities")
    (h3 : t ≠ "secrets") (h4 : t ≠ "quality") (h5 : t ≠ "performance")
    (h6 : t ≠ "maintainability") (h7 : t ≠ "accessibility") :
    ∃ v, parseOptions ["--type", t] = [("type", v)] ∧
      runScan [("type", v)] fs = (fs, .ok [(v, [])]) ∧
      analyzeCode [("type", v)] fs = (fs, .ok [(v, [])]) ∧
      runArgv ["node", "codeant-demo.js", "scan", "--type", t]
        now dateNow fs = (fs, 0) ∧
      runArgv ["node", "codeant-demo.js", "analyze", "--type", t]
        now dateNow fs = (fs, 0) := by
  have hs : runScan
      [("type", if t = "" then JsVal.bool true else JsVal.str t)] fs
      = (fs, .ok [(if t = "" then JsVal.bool true else JsVal.str t, [])]) := by
    by_cases ht : t = ""
    · simp [runScan, hconn, JsVal.lookupKey, JsVal.truthy, ht,
        scanFindings, isStrVal]
    · simp [runScan, hconn, JsVal.lookupKey, JsVal.truthy, ht,
        scanFindings, isStrVal, h1, h2, h3]
  have ha : analyzeCode
      [("type", if t = "" then JsVal.bool true else JsVal.str t)] fs
      = (fs, .ok [(if t = "" then JsVal.bool true else JsVal.str t, [])]) := by
    by_cases ht : t = ""
    · simp [analyzeCode, hconn, JsVal.lookupKey, JsVal.truthy, ht,
        analysisFindings, isStrVal]
    · simp [analyzeCode, hconn, JsVal.lookupKey, JsVal.truthy, ht,
        analysisFindings, isStrVal, h4, h5, h6, h7]
  refine ⟨if t = "" then JsVal.bool true else JsVal.str t, rfl, hs, ha,
    ?_, ?_⟩
  · show run "scan" (parseOptions ["--type", t]) now dateNow fs = (fs, 0)
    rw [show parseOptions ["--type", t]
        = [("type", if t = "" then JsVal.bool true else JsVal.str t)]
        from rfl]
    exact run_scan_exit_zero _ now dateNow fs fs _ hs
  · show run "analyze" (parseOptions ["--type", t]) now dateNow fs = (fs, 0)
    rw [show parseOptions ["--type", t]
        = [("type", if t = "" then JsVal.bool true else JsVal.str t)]
        from rfl]
    exact run_analyze_exit_zero _ now dateNow fs fs _ ha

/-- C10 witness: `scan --type bogus` and `analyze --type bogus` on a
connected project exit 0 with empty findings. -/
theorem unknown_type_scan_analyze_succeed_witness :
    ∃ v, parseOptions ["--type", "bogus"] = [("type", v)] ∧
      runScan [("type", v)] ⟨some [("connected", JsVal.bool true)], []⟩
        = (⟨some [("connected", JsVal.bool true)], []⟩, .ok [(v, [])]) ∧
      analyzeCode [("type", v)] ⟨some [("connected", JsVal.bool true)], []⟩
        = (⟨some [("connected", JsVal.bool true)], []⟩, .ok [(v, [])]) ∧
      runArgv ["node", "codeant-demo.js", "scan", "--type", "bogus"]
        "2025-01-01T00:00:00.000Z" 1
        ⟨some [("connected", JsVal.bool true)], []⟩
        = (⟨some [("connected", JsVal.bool true)], []⟩, 0) ∧
      runArgv ["node", "codeant-demo.js", "analyze", "--type", "bogus"]
        "2025-01-01T00:00:00.000Z" 1
        ⟨some [("connected", JsVal.bool true)], []⟩
        = (⟨some [("connected", JsVal.bool true)], []⟩, 0) :=
  unknown_type_scan_analyze_succeed
    ⟨some [("connected", JsVal.bool true)], []⟩ "bogus"
    "2025-01-01T00:00:00.000Z" 1 rfl
    (by simp) (by simp) (by simp) (by simp) (by simp) (by simp) (by simp)

end CLI
